import Mathlib

/-!
Shallow embedding of the criteria-matching and stream-deduplication engine of
the WatchExchangeBot repository, together with proofs of its specification
claims.

Strings from the Python source are modelled as `List Char`; Python's
`str.lower` becomes `List.map Char.toLower` and Python's substring test
`needle in hay` becomes decidability of `List.IsInfix`.
-/

namespace Wemb

/-- Python `str.lower()` on the ASCII fragment, applied characterwise. -/
def lower (s : List Char) : List Char := s.map Char.toLower

/-- Python's `needle in hay` substring test on strings: `needle` occurs as a
contiguous infix of `hay`. -/
def isIn (needle hay : List Char) : Bool := decide (needle <:+: hay)

/-- `models.SubmissionType`: the two fixed variants `WTB` and `WTS`. -/
inductive SubmissionType where
  | WTB
  | WTS
deriving DecidableEq

/-- The enum member's string value (`"WTB"` / `"WTS"`). -/
def SubmissionType.value : SubmissionType → List Char
  | .WTB => 'W' :: 'T' :: 'B' :: []
  | .WTS => 'W' :: 'T' :: 'S' :: []

/-- `models.SubmissionType.__init__`: `formatted_value = f"[\x7bstr(value).lower()\x7d]"`,
i.e. the category marker `"[" + lowercased code + "]"` such as `[wts]`. -/
def SubmissionType.formatted_value (t : SubmissionType) : List Char :=
  '[' :: lower t.value ++ [']']

/-- `models.Keyword`: a single keyword row owned by a criterion (the database
id and back reference do not affect matching and are omitted). -/
structure Keyword where
  content : List Char
deriving DecidableEq

/-- `models.SubmissionCriterion`: category, minimum transaction count,
owned keyword rows, and the conjunction/disjunction flag. -/
structure SubmissionCriterion where
  submission_type : SubmissionType
  min_transactions : Int
  keywords : List Keyword
  all_required : Bool
deriving DecidableEq

/-- `models.SubmissionCriterion.check_title`: lowercase the title, require the
category marker, then require all keywords (`all_required`) or any keyword
(otherwise), each keyword lowercased, as substrings of the lowered title.
The `for` loops with early `return` are rendered as `List.all` / `List.any`. -/
def SubmissionCriterion.check_title (c : SubmissionCriterion) (title : List Char) : Bool :=
  let t := lower title
  if !(isIn c.submission_type.formatted_value t) then
    false
  else if c.all_required then
    c.keywords.all fun k => isIn (lower k.content) t
  else
    c.keywords.any fun k => isIn (lower k.content) t

theorem toNat_ofNat_valid (n : Nat) (h : n < 0xd800) : (Char.ofNat n).toNat = n := by
  rw [Char.ofNat, dif_pos (Or.inl h)]
  rfl

/-- `Char.toLower` is idempotent: a lowered character is outside `[65, 90]`. -/
theorem toLower_toLower (c : Char) : c.toLower.toLower = c.toLower := by
  unfold Char.toLower
  by_cases h : c.toNat ≥ 65 ∧ c.toNat ≤ 90
  · rw [if_pos h]
    have hv : (Char.ofNat (c.toNat + 32)).toNat = c.toNat + 32 :=
      toNat_ofNat_valid _ (by omega)
    rw [if_neg]
    rw [hv]
    omega
  · rw [if_neg h, if_neg h]

/-- Lowercasing a character list is idempotent. -/
theorem lower_lower (t : List Char) : lower (lower t) = lower t := by
  have h : Char.toLower ∘ Char.toLower = Char.toLower := funext toLower_toLower
  rw [lower, lower, List.map_map, h]

/-- The empty string is a substring of every string. -/
theorem isIn_nil (t : List Char) : isIn [] t = true := by
  simp [isIn]

/-- `ValueError` raised by `models.SubmissionCriterion.validate_min_transactions`. -/
inductive ConstructError where
  | valueError
deriving DecidableEq

/-- `models.SubmissionCriterion.validate_min_transactions`: raises `ValueError`
on a negative value, otherwise returns the value unchanged. -/
def validate_min_transactions (value : Int) : Except ConstructError Int :=
  if value < 0 then .error .valueError else .ok value

/-- Construction of a `models.SubmissionCriterion`: the `validates` hook runs
on the `min_transactions` assignment, so a negative value aborts construction
and the object never comes into existence. -/
def mkSubmissionCriterion (st : SubmissionType) (min_transactions : Int)
    (keywords : List Keyword) (all_required : Bool) :
    Except ConstructError SubmissionCriterion :=
  match validate_min_transactions min_transactions with
  | .error e => .error e
  | .ok v => .ok ⟨st, v, keywords, all_required⟩

/-- A submission as consumed from the feed: its id, title, and the author's
flair text (`None` when the author has no flair). The permalink plays no part
in matching and is omitted. -/
structure Submission where
  id : List Char
  title : List Char
  author_flair_text : Option (List Char)
deriving DecidableEq

/-- `RE_TRANSACTIONS = re.compile(r"^\d+")` applied with `.match`: the leading
run of decimal digits, or `none` when the text does not start with a digit
(in the source, indexing the `None` match raises `TypeError`). -/
def re_transactions_match (s : List Char) : Option (List Char) :=
  let ds := s.takeWhile Char.isDigit
  if ds.isEmpty then none else some ds

/-- Python `int` applied to a nonempty string of decimal digits. -/
def digitsToNat (ds : List Char) : Nat :=
  ds.foldl (fun a c => a * 10 + (c.toNat - 48)) 0

/-- Which gate decided a criterion check, mirroring the log lines of
`monitor.check_criteria` (`Failed on title criteria`, `Submission has INVALID
user flair!`, `Failed on minimum transaction count`, or a full match). -/
inductive GateLog where
  | titleFail
  | invalidFlair
  | minTransactionsFail
  | passed
deriving DecidableEq

/-- `monitor.check_criteria`: title gate first; then the reputation gate
parses the leading digits of the author flair, where a missing flair or a
flair without leading digits raises `TypeError`, caught and turned into a
logged non-match; a parsed value below `min_transactions` is a non-match;
otherwise all gates passed. Total by construction: no exception escapes. -/
def check_criteria (c : SubmissionCriterion) (s : Submission) : Bool × GateLog :=
  if !(c.check_title s.title) then
    (false, .titleFail)
  else
    match s.author_flair_text with
    | none => (false, .invalidFlair)
    | some flair =>
      match re_transactions_match flair with
      | none => (false, .invalidFlair)
      | some ds =>
        if (digitsToNat ds : Int) < c.min_transactions then
          (false, .minTransactionsFail)
        else
          (true, .passed)

/-- `IntegrityError` raised by committing a `ProcessedSubmission` whose id is
already a primary key in the table. -/
inductive DbError where
  | integrityError
deriving DecidableEq

/-- The dedup table insert: `session.add(ProcessedSubmission(id=...))` plus
`commit`, which raises `IntegrityError` when the primary key already exists
and otherwise appends exactly one row. The store is the list of stored ids. -/
def insert_processed (store : List (List Char)) (id : List Char) :
    Except DbError (List (List Char)) :=
  if id ∈ store then .error .integrityError else .ok (store ++ [id])

/-- The guarded dedup commit of `monitor.process_submissions`: the
`IntegrityError` is caught and logged (second component `true`), leaving the
store unchanged; on success the row is inserted. Never raises past this
boundary. -/
def mark_processed (store : List (List Char)) (id : List Char) :
    List (List Char) × Bool :=
  match insert_processed store id with
  | .ok s => (s, false)
  | .error _ => (store, true)

/-- Exceptions that can escape the per-submission body of
`monitor.process_submissions` (the notification callback is awaited with no
surrounding `try`). -/
inductive MonitorError where
  | callbackFailure
deriving DecidableEq

/-- The criteria loop of `monitor.process_submissions`: each criterion is
checked with `check_criteria`; on a match the callback is awaited, and a
callback exception propagates immediately (no handler). Returns the per
criterion match flags when no callback fails. -/
def notify_matches (cb : SubmissionCriterion → Submission → Except MonitorError Unit)
    (s : Submission) : List SubmissionCriterion → Except MonitorError (List Bool)
  | [] => .ok []
  | c :: rest =>
    if (check_criteria c s).1 then
      match cb c s with
      | .ok _ =>
        match notify_matches cb s rest with
        | .ok ms => .ok (true :: ms)
        | .error e => .error e
      | .error e => .error e
    else
      match notify_matches cb s rest with
      | .ok ms => .ok (false :: ms)
      | .error e => .error e

/-- Observable outcome of handling one submission: the dedup store afterwards,
the per-criterion match flags, whether the dedup check short-circuited, and
whether the commit inserted a row or logged a duplicate. -/
structure PostOutcome where
  store : List (List Char)
  matched : List Bool
  skipped : Bool
  committed : Bool
  dup_logged : Bool
deriving DecidableEq

/-- The per-submission body of `monitor.process_submissions`: skip when the id
is already in the dedup store; otherwise run the criteria loop (a callback
exception propagates, aborting the body before the commit), then perform the
guarded dedup commit. -/
def process_one (store : List (List Char)) (criteria : List SubmissionCriterion)
    (cb : SubmissionCriterion → Submission → Except MonitorError Unit)
    (s : Submission) : Except MonitorError PostOutcome :=
  if s.id ∈ store then
    .ok ⟨store, [], true, false, false⟩
  else
    match notify_matches cb s criteria with
    | .error e => .error e
    | .ok ms =>
      let r := mark_processed store s.id
      .ok ⟨r.1, ms, false, !r.2, r.2⟩

/-- How one invocation of `process_submissions` inside `run_monitor` ends:
with a `CancelledError`, or with any other exception. -/
inductive RunOutcome where
  | cancelled
  | failed
deriving DecidableEq

/-- Observable behaviour of the `run_monitor` supervisor over a sequence of
stream terminations: the sleep intervals taken, the number of times the
connection was reopened, and whether a cancellation was re-raised. -/
structure SupervisorTrace where
  backoffs : List Nat
  restarts : Nat
  cancelled_propagated : Bool
deriving DecidableEq

/-- `monitor.run_monitor`: an unbounded `while True` loop; a `CancelledError`
from the stream is logged and re-raised immediately, while any other
exception is logged, followed by `asyncio.sleep(10)` and a fresh `Reddit`
connection for the next iteration. -/
def run_monitor : List RunOutcome → SupervisorTrace
  | [] => ⟨[], 0, false⟩
  | .cancelled :: _ => ⟨[], 0, true⟩
  | .failed :: rest =>
    let t := run_monitor rest
    ⟨10 :: t.backoffs, t.restarts + 1, t.cancelled_propagated⟩

end Wemb

namespace WembMain

/-- `main.SubmissionCriterion.__process_keywords`: `None` or an empty keyword
list is normalized to the singleton list holding the empty string; otherwise
every keyword is lowercased. -/
def process_keywords (initial : Option (List (List Char))) : List (List Char) :=
  match initial with
  | none => [[]]
  | some l => if l.isEmpty then [[]] else l.map Wemb.lower

/-- `main.SubmissionCriterion`: the pre-database variant of the criterion,
whose keywords are plain strings normalized at construction time. -/
structure SubmissionCriterion where
  submission_type : Wemb.SubmissionType
  min_transactions : Int
  keywords : List (List Char)
  all_required : Bool
deriving DecidableEq

/-- `main.SubmissionCriterion.__init__`: stores the processed keywords and
raises `ValueError` when `min_transactions < 0`, so a negative value never
yields a constructed object. -/
def SubmissionCriterion.make (st : Wemb.SubmissionType) (min_transactions : Int)
    (keywords : Option (List (List Char))) (all_required : Bool) :
    Except String SubmissionCriterion :=
  if min_transactions < 0 then
    .error "min_transactions must be a positive integer!"
  else
    .ok ⟨st, min_transactions, process_keywords keywords, all_required⟩

/-- `main.SubmissionCriterion.check_title`: as the database variant, except
keywords were already lowercased by `__process_keywords` and are compared
as stored. -/
def SubmissionCriterion.check_title (c : SubmissionCriterion) (title : List Char) : Bool :=
  let t := Wemb.lower title
  if !(Wemb.isIn c.submission_type.formatted_value t) then
    false
  else if c.all_required then
    c.keywords.all fun k => Wemb.isIn k t
  else
    c.keywords.any fun k => Wemb.isIn k t

end WembMain

/-- C1: with `all_required = true`, `check_title` is true iff the lowered title
contains the category marker and every keyword, lowercased, is a substring of
the lowered title (vacuously true over an empty or empty-string keyword set). -/
theorem c1_all_required_iff (c : Wemb.SubmissionCriterion) (title : List Char)
    (h : c.all_required = true) :
    c.check_title title = true ↔
      (c.submission_type.formatted_value <:+: Wemb.lower title ∧
        ∀ k ∈ c.keywords, Wemb.lower k.content <:+: Wemb.lower title) := by
  unfold Wemb.SubmissionCriterion.check_title
  simp [h, Wemb.isIn, List.all_eq_true]

/-- Witness for C1 at a concrete criterion and title. -/
theorem c1_witness :
    let c : Wemb.SubmissionCriterion :=
      ⟨.WTS, 5, [⟨('s' :: 'e' :: 'i' :: 'k' :: 'o' :: [] : List Char)⟩], true⟩
    let title : List Char :=
      '[' :: 'W' :: 'T' :: 'S' :: ']' :: ' ' :: 'S' :: 'e' :: 'i' :: 'k' :: 'o' :: []
    c.check_title title = true ↔
      (c.submission_type.formatted_value <:+: Wemb.lower title ∧
        ∀ k ∈ c.keywords, Wemb.lower k.content <:+: Wemb.lower title) :=
  c1_all_required_iff _ _ rfl

/-- C2: with `all_required = false`, `check_title` is true iff the lowered
title contains the category marker and at least one keyword, lowercased, is a
substring of the lowered title (so the normalized empty-string keyword always
passes the keyword gate, the empty string being an infix of every title). -/
theorem c2_any_iff (c : Wemb.SubmissionCriterion) (title : List Char)
    (h : c.all_required = false) :
    c.check_title title = true ↔
      (c.submission_type.formatted_value <:+: Wemb.lower title ∧
        ∃ k ∈ c.keywords, Wemb.lower k.content <:+: Wemb.lower title) := by
  unfold Wemb.SubmissionCriterion.check_title
  simp [h, Wemb.isIn, List.any_eq_true]

/-- Witness for C2 at a concrete criterion and title. -/
theorem c2_witness :
    let c : Wemb.SubmissionCriterion :=
      ⟨.WTB, 5, [⟨('s' :: 'e' :: 'i' :: 'k' :: 'o' :: [] : List Char)⟩], false⟩
    let title : List Char :=
      '[' :: 'w' :: 't' :: 'b' :: ']' :: ' ' :: 'o' :: 'm' :: 'e' :: 'g' :: 'a' :: []
    c.check_title title = true ↔
      (c.submission_type.formatted_value <:+: Wemb.lower title ∧
        ∃ k ∈ c.keywords, Wemb.lower k.content <:+: Wemb.lower title) :=
  c2_any_iff _ _ rfl

/-- C3: constructing with an empty keyword list (`[]` or `None`) yields the
same criterion as constructing with the single empty-string keyword, and for
such a criterion the keyword gate always passes — the match reduces to the
category-marker test — in both `all_required` and `any` mode. -/
theorem c3_empty_keywords_normalized (st : Wemb.SubmissionType) (mt : Int)
    (ar : Bool) (title : List Char) (h : 0 ≤ mt) :
    WembMain.SubmissionCriterion.make st mt (some []) ar
        = WembMain.SubmissionCriterion.make st mt (some [[]]) ar ∧
    WembMain.SubmissionCriterion.make st mt none ar
        = WembMain.SubmissionCriterion.make st mt (some []) ar ∧
    ∀ c, WembMain.SubmissionCriterion.make st mt (some []) ar = .ok c →
      c.check_title title = Wemb.isIn st.formatted_value (Wemb.lower title) := by
  have hn : ¬ (mt < 0) := by omega
  refine ⟨?_, ?_, ?_⟩
  · unfold WembMain.SubmissionCriterion.make
    rw [if_neg hn, if_neg hn]
    rfl
  · unfold WembMain.SubmissionCriterion.make
    rw [if_neg hn, if_neg hn]
    rfl
  · intro c hc
    unfold WembMain.SubmissionCriterion.make at hc
    rw [if_neg hn] at hc
    cases hc
    unfold WembMain.SubmissionCriterion.check_title
    cases hm : Wemb.isIn st.formatted_value (Wemb.lower title) <;>
      cases ar <;>
      simp [WembMain.process_keywords, hm, Wemb.isIn_nil]

/-- Witness for C3 at a concrete category, transaction minimum and title. -/
theorem c3_witness :
    WembMain.SubmissionCriterion.make .WTS 5 (some []) true
        = WembMain.SubmissionCriterion.make .WTS 5 (some [[]]) true ∧
    WembMain.SubmissionCriterion.make .WTS 5 none true
        = WembMain.SubmissionCriterion.make .WTS 5 (some []) true ∧
    ∀ c, WembMain.SubmissionCriterion.make .WTS 5 (some []) true = .ok c →
      c.check_title ('[' :: 'w' :: 't' :: 's' :: ']' :: [])
        = Wemb.isIn (Wemb.SubmissionType.formatted_value .WTS)
            (Wemb.lower ('[' :: 'w' :: 't' :: 's' :: ']' :: [])) :=
  c3_empty_keywords_normalized .WTS 5 true _ (by decide)

/-- C10: the match predicate is invariant under the letter case of the title:
two titles with the same lowercasing match identically, and lowering the title
beforehand does not change the result. -/
theorem c10_case_insensitive (c : Wemb.SubmissionCriterion) (t1 t2 : List Char)
    (h : Wemb.lower t1 = Wemb.lower t2) :
    c.check_title t1 = c.check_title t2 ∧
    c.check_title (Wemb.lower t1) = c.check_title t1 := by
  constructor
  · unfold Wemb.SubmissionCriterion.check_title
    rw [h]
  · unfold Wemb.SubmissionCriterion.check_title
    rw [Wemb.lower_lower]

/-- Witness for C10: an upper-case and a lower-case spelling of the same title
match the same criterion identically. -/
theorem c10_witness :
    let c : Wemb.SubmissionCriterion :=
      ⟨.WTS, 5, [⟨('s' :: 'e' :: 'i' :: 'k' :: 'o' :: [] : List Char)⟩], true⟩
    let t1 : List Char := '[' :: 'W' :: 'T' :: 'S' :: ']' :: ' ' :: 'S' :: 'E' :: 'I' :: 'K' :: 'O' :: []
    let t2 : List Char := '[' :: 'w' :: 't' :: 's' :: ']' :: ' ' :: 's' :: 'e' :: 'i' :: 'k' :: 'o' :: []
    c.check_title t1 = c.check_title t2 ∧
    c.check_title (Wemb.lower t1) = c.check_title t1 :=
  c10_case_insensitive _ _ _ (by decide)

/-- A criterion that fully matches `c4_sub` (marker, keyword and flair). -/
def c4_crit : Wemb.SubmissionCriterion :=
  ⟨.WTS, 5, [⟨('s' :: 'e' :: 'i' :: 'k' :: 'o' :: [] : List Char)⟩], true⟩

/-- A fresh submission matching `c4_crit`, flair `"12"`. -/
def c4_sub : Wemb.Submission :=
  ⟨'a' :: 'b' :: 'c' :: [],
   '[' :: 'w' :: 't' :: 's' :: ']' :: ' ' :: 's' :: 'e' :: 'i' :: 'k' :: 'o' :: [],
   some ('1' :: '2' :: [])⟩

/-- A notification callback that fails. -/
def c4_cb : Wemb.SubmissionCriterion → Wemb.Submission → Except Wemb.MonitorError Unit :=
  fun _ _ => .error .callbackFailure

/-- Counterexample to C4: in `monitor.process_submissions` the notification
callback is awaited with no surrounding `try`, so on a matched post with a
failing callback the per-post body ends in the propagated exception — it is
not caught there, the dedup commit for the post never runs, and the stream
loop is torn down (the failure then reaches `run_monitor`). -/
theorem c4_counterexample :
    Wemb.process_one [] [c4_crit] c4_cb c4_sub
      = .error .callbackFailure := by
  rfl

/-- C4 (amended): a callback failure while handling a single post is not
caught inside the per-post body: whenever the criteria loop raises, the body
propagates exactly that error and the dedup commit for the post does not
happen (the Reconnect Supervisor then catches it, logs it, and restarts the
stream after its fixed backoff). -/
theorem c4_callback_failure_propagates (store : List (List Char))
    (criteria : List Wemb.SubmissionCriterion)
    (cb : Wemb.SubmissionCriterion → Wemb.Submission → Except Wemb.MonitorError Unit)
    (s : Wemb.Submission) (e : Wemb.MonitorError)
    (h1 : s.id ∉ store)
    (h2 : Wemb.notify_matches cb s criteria = .error e) :
    Wemb.process_one store criteria cb s = .error e := by
  simp [Wemb.process_one, h1, h2]

/-- Witness for the amended C4 at the concrete failing input. -/
theorem c4_witness :
    Wemb.process_one (('z' :: []) :: []) [c4_crit] c4_cb c4_sub
      = .error .callbackFailure :=
  c4_callback_failure_propagates _ _ _ _ _ (by decide) rfl

/-- A submission whose id is already in the dedup store. -/
def c5_sub : Wemb.Submission :=
  ⟨'x' :: 'y' :: [],
   '[' :: 'w' :: 't' :: 's' :: ']' :: ' ' :: 's' :: 'e' :: 'i' :: 'k' :: 'o' :: [],
   some ('9' :: '9' :: [])⟩

/-- A criterion that would match `c5_sub` if it were evaluated. -/
def c5_crit : Wemb.SubmissionCriterion :=
  ⟨.WTS, 5, [⟨('s' :: 'e' :: 'i' :: 'k' :: 'o' :: [] : List Char)⟩], true⟩

/-- A callback that would fail loudly if it were ever invoked. -/
def c5_cb : Wemb.SubmissionCriterion → Wemb.Submission → Except Wemb.MonitorError Unit :=
  fun _ _ => .error .callbackFailure

/-- C5: when the submission id is already in the dedup store, the per-post
body returns the skip outcome — a value independent of the criteria list and
of the callback, with the store unchanged, no match flags, and no commit —
so no criterion is evaluated, no notification happens, and there is no
re-commit. -/
theorem c5_already_processed_skips (store : List (List Char))
    (criteria : List Wemb.SubmissionCriterion)
    (cb : Wemb.SubmissionCriterion → Wemb.Submission → Except Wemb.MonitorError Unit)
    (s : Wemb.Submission) (h : s.id ∈ store) :
    Wemb.process_one store criteria cb s = .ok ⟨store, [], true, false, false⟩ := by
  simp [Wemb.process_one, h]

/-- Witness for C5: a seen submission is skipped even with a matching
criterion loaded and a callback that would fail. -/
theorem c5_witness :
    Wemb.process_one (('x' :: 'y' :: []) :: []) [c5_crit] c5_cb c5_sub
      = .ok ⟨('x' :: 'y' :: []) :: [], [], true, false, false⟩ :=
  c5_already_processed_skips _ _ _ _ (by decide)

/-- C6: the dedup commit is idempotent: the second `mark_processed` for an id
leaves the store unchanged, reports only the caught-and-logged
`IntegrityError` (raised by the raw insert, shown by the last conjunct, and
never propagated past `mark_processed`), and the at-most-one-row-per-id
invariant is preserved. -/
theorem c6_mark_processed_idempotent (store : List (List Char)) (id : List Char)
    (h : store.count id ≤ 1) :
    (Wemb.mark_processed (Wemb.mark_processed store id).1 id).1
        = (Wemb.mark_processed store id).1 ∧
    (Wemb.mark_processed (Wemb.mark_processed store id).1 id).2 = true ∧
    (Wemb.mark_processed store id).1.count id ≤ 1 ∧
    Wemb.insert_processed (Wemb.mark_processed store id).1 id
        = .error .integrityError := by
  by_cases hm : id ∈ store
  · simp [Wemb.mark_processed, Wemb.insert_processed, hm, h]
  · simp [Wemb.mark_processed, Wemb.insert_processed, hm,
      List.count_eq_zero.2 hm]

/-- Witness for C6 starting from the empty store. -/
theorem c6_witness :
    (Wemb.mark_processed (Wemb.mark_processed [] ('a' :: [])).1 ('a' :: [])).1
        = (Wemb.mark_processed [] ('a' :: [])).1 ∧
    (Wemb.mark_processed (Wemb.mark_processed [] ('a' :: [])).1 ('a' :: [])).2 = true ∧
    (Wemb.mark_processed [] ('a' :: [])).1.count ('a' :: []) ≤ 1 ∧
    Wemb.insert_processed (Wemb.mark_processed [] ('a' :: [])).1 ('a' :: [])
        = .error .integrityError :=
  c6_mark_processed_idempotent [] ('a' :: []) (by decide)

/-- C7: the reputation gate of `check_criteria` parses the leading decimal
digits of the flair; a missing flair or a flair with no leading digits makes
the criterion a non-match with a diagnostic gate log (never `passed`), with
no exception escaping (the function is total); a parsed value strictly below
`min_transactions` is a non-match. -/
theorem c7_reputation_gate (c : Wemb.SubmissionCriterion) (s : Wemb.Submission) :
    (s.author_flair_text = none →
      (Wemb.check_criteria c s).1 = false ∧
      (Wemb.check_criteria c s).2 ≠ Wemb.GateLog.passed) ∧
    (∀ f, s.author_flair_text = some f → Wemb.re_transactions_match f = none →
      (Wemb.check_criteria c s).1 = false ∧
      (Wemb.check_criteria c s).2 ≠ Wemb.GateLog.passed) ∧
    (∀ f ds, s.author_flair_text = some f → Wemb.re_transactions_match f = some ds →
      (Wemb.digitsToNat ds : Int) < c.min_transactions →
      (Wemb.check_criteria c s).1 = false) := by
  refine ⟨?_, ?_, ?_⟩
  · intro hf
    by_cases ht : c.check_title s.title <;>
      simp [Wemb.check_criteria, hf, ht]
  · intro f hf hp
    by_cases ht : c.check_title s.title <;>
      simp [Wemb.check_criteria, hf, hp, ht]
  · intro f ds hf hp hlt
    by_cases ht : c.check_title s.title <;>
      simp [Wemb.check_criteria, hf, hp, ht, hlt]

/-- Criterion for the C7 witness. -/
def c7_crit : Wemb.SubmissionCriterion :=
  ⟨.WTS, 5, [⟨('s' :: 'e' :: 'i' :: 'k' :: 'o' :: [] : List Char)⟩], true⟩

/-- Submission with absent flair. -/
def c7_sub_none : Wemb.Submission :=
  ⟨'i' :: '1' :: [],
   '[' :: 'w' :: 't' :: 's' :: ']' :: ' ' :: 's' :: 'e' :: 'i' :: 'k' :: 'o' :: [],
   none⟩

/-- Submission whose flair has no leading digits. -/
def c7_sub_bad : Wemb.Submission :=
  ⟨'i' :: '2' :: [],
   '[' :: 'w' :: 't' :: 's' :: ']' :: ' ' :: 's' :: 'e' :: 'i' :: 'k' :: 'o' :: [],
   some ('N' :: '/' :: 'A' :: [])⟩

/-- Submission whose flair parses below the minimum. -/
def c7_sub_low : Wemb.Submission :=
  ⟨'i' :: '3' :: [],
   '[' :: 'w' :: 't' :: 's' :: ']' :: ' ' :: 's' :: 'e' :: 'i' :: 'k' :: 'o' :: [],
   some ('3' :: [])⟩

/-- Witness for C7 at its three concrete failure scenarios. -/
theorem c7_witness :
    ((Wemb.check_criteria c7_crit c7_sub_none).1 = false ∧
      (Wemb.check_criteria c7_crit c7_sub_none).2 ≠ Wemb.GateLog.passed) ∧
    ((Wemb.check_criteria c7_crit c7_sub_bad).1 = false ∧
      (Wemb.check_criteria c7_crit c7_sub_bad).2 ≠ Wemb.GateLog.passed) ∧
    (Wemb.check_criteria c7_crit c7_sub_low).1 = false :=
  ⟨(c7_reputation_gate c7_crit c7_sub_none).1 rfl,
   (c7_reputation_gate c7_crit c7_sub_bad).2.1 ('N' :: '/' :: 'A' :: []) rfl
     (by decide),
   (c7_reputation_gate c7_crit c7_sub_low).2.2 ('3' :: []) ('3' :: []) rfl
     (by decide) (by decide)⟩

/-- C8: construction with a negative `min_transactions` always fails the
`validates` hook with `ValueError`, construction with `0` always succeeds,
and every successfully constructed criterion has a non-negative
`min_transactions` — so the validation failure can never be observed by the
Stream Monitor, which only ever reads constructed criteria from the store. -/
theorem c8_min_transactions_validation (st : Wemb.SubmissionType)
    (kws : List Wemb.Keyword) (ar : Bool) :
    (∀ v : Int, v < 0 →
      Wemb.mkSubmissionCriterion st v kws ar = .error .valueError) ∧
    Wemb.mkSubmissionCriterion st 0 kws ar = .ok ⟨st, 0, kws, ar⟩ ∧
    (∀ (v : Int) (c : Wemb.SubmissionCriterion),
      Wemb.mkSubmissionCriterion st v kws ar = .ok c → 0 ≤ c.min_transactions) := by
  refine ⟨?_, ?_, ?_⟩
  · intro v hv
    simp [Wemb.mkSubmissionCriterion, Wemb.validate_min_transactions, hv]
  · simp [Wemb.mkSubmissionCriterion, Wemb.validate_min_transactions]
  · intro v c hc
    unfold Wemb.mkSubmissionCriterion Wemb.validate_min_transactions at hc
    by_cases hv : v < 0
    · rw [if_pos hv] at hc
      exact absurd hc (by simp)
    · rw [if_neg hv] at hc
      simp only [Except.ok.injEq] at hc
      subst hc
      show (0 : Int) ≤ v
      omega

/-- Witness for C8 at `min_transactions = -1` and `0`. -/
theorem c8_witness :
    Wemb.mkSubmissionCriterion .WTS (-1) [] true = .error .valueError ∧
    Wemb.mkSubmissionCriterion .WTS 0 [] true = .ok ⟨.WTS, 0, [], true⟩ :=
  ⟨(c8_min_transactions_validation .WTS [] true).1 (-1) (by decide),
   (c8_min_transactions_validation .WTS [] true).2.1⟩

/-- C9: the supervisor propagates a cancellation immediately with no retry
and no backoff; any other failure is followed by a backoff of exactly 10 and
one more restart, and `n` consecutive failures are retried `n` times — the
retries are unbounded. -/
theorem c9_supervisor_backoff (rest : List Wemb.RunOutcome) (n : Nat) :
    Wemb.run_monitor (.cancelled :: rest) = ⟨[], 0, true⟩ ∧
    Wemb.run_monitor (.failed :: rest)
      = ⟨10 :: (Wemb.run_monitor rest).backoffs,
         (Wemb.run_monitor rest).restarts + 1,
         (Wemb.run_monitor rest).cancelled_propagated⟩ ∧
    Wemb.run_monitor (List.replicate n .failed)
      = ⟨List.replicate n 10, n, false⟩ := by
  refine ⟨rfl, rfl, ?_⟩
  induction n with
  | zero => rfl
  | succ m ih =>
    rw [List.replicate_succ, List.replicate_succ]
    simp [Wemb.run_monitor, ih]
